import Mathlib

/-!
Verification of the europa-light execution sandbox against its design
specification.  The Rust sources are shallowly embedded: bytes are `Nat`,
byte buffers are `List Nat`, `&mut` parameters become explicit state passing,
and `Result` becomes `Except`.  The bytecode engine (`Instance::invoke`) is an
external collaborator and is abstracted as a function argument.
-/

namespace Ceres

/-- A byte buffer (`Vec<u8>` / `[u8; 32]` in the source). -/
abbrev Bytes := List Nat

/-! ## Executor result taxonomy — src/crates/executor/src/result.rs -/

/-- The contract-facing status vocabulary (`enum ReturnCode`). -/
inductive ReturnCode where
  | Success
  | CalleeTrapped
  | CalleeReverted
  | KeyNotFound
  | BelowSubsistenceThreshold
  | TransferFailed
  | NewContractNotFunded
  | CodeNotFound
  | NotCallable
  | LoggingDisabled
  | UnExpectedReturnCode
  deriving DecidableEq, Repr

/-- The numeric discriminant assigned to each variant in the source
(`#[repr(i32)]`, `Success = 0`, ..., `UnExpectedReturnCode = 10`). -/
def ReturnCode.toNum : ReturnCode → Int
  | .Success => 0
  | .CalleeTrapped => 1
  | .CalleeReverted => 2
  | .KeyNotFound => 3
  | .BelowSubsistenceThreshold => 4
  | .TransferFailed => 5
  | .NewContractNotFunded => 6
  | .CodeNotFound => 7
  | .NotCallable => 8
  | .LoggingDisabled => 9
  | .UnExpectedReturnCode => 10

/-- `impl From<i32> for ReturnCode`: the `match n` in the source, branch by
branch; the wildcard arm yields `UnExpectedReturnCode`. -/
def ReturnCode.fromI32 (n : Int) : ReturnCode :=
  if n = 0 then .Success
  else if n = 1 then .CalleeTrapped
  else if n = 2 then .CalleeReverted
  else if n = 3 then .KeyNotFound
  else if n = 4 then .BelowSubsistenceThreshold
  else if n = 5 then .TransferFailed
  else if n = 6 then .NewContractNotFunded
  else if n = 7 then .CodeNotFound
  else if n = 8 then .NotCallable
  else if n = 9 then .LoggingDisabled
  else .UnExpectedReturnCode

/-- The executor error taxonomy (`enum Error` in result.rs).  Payloads whose
types live outside src (`Trap`) are carried as strings. -/
inductive ExecError where
  | InitMemoryFailed
  | OutOfBounds
  | InitModuleFailed
  | ExecuteFailed (code : ReturnCode)
  | UnkownError
  | Trap (reason : String)
  | GetFunctionNameFailed
  | CreateWasmtimeConfigFailed
  | GetExternalFailed (name : String)
  | DecodeRuntimeValueFailed
  | OutputBufferTooSmall
  | WrongArugmentLength
  | SetStorageFailed
  | ReturnData (flags : Nat) (data : Bytes)
  | TooManyTopics
  | DuplicateTopics
  | TopicValueTooLarge
  | OutOfGas
  | Custom (msg : String)
  | AnyHow
  | UnExpectedReturnValue
  | ParseWasmModuleFailed
  | ExecutorNotInited
  deriving DecidableEq, Repr

/-- Claim C1: `ReturnCode::from(n)` yields the variant numbered `n` for every
`0 <= n <= 9` and yields `UnExpectedReturnCode` for every `n` outside `0..=9`,
including every negative `n`; the function is total, so it never panics. -/
theorem returnCode_from_i32_spec (n : Int) :
    (0 ≤ n → n ≤ 9 → ReturnCode.toNum (ReturnCode.fromI32 n) = n) ∧
    (n < 0 ∨ 9 < n → ReturnCode.fromI32 n = ReturnCode.UnExpectedReturnCode) := by
  constructor
  · intro h0 h9
    interval_cases n <;> rfl
  · intro h
    unfold ReturnCode.fromI32
    split_ifs <;> first | rfl | omega

/-- Witness for C1 at the concrete inputs 5 and -3. -/
theorem returnCode_from_i32_spec_witness :
    ReturnCode.toNum (ReturnCode.fromI32 5) = 5 ∧
    ReturnCode.fromI32 (-3) = ReturnCode.UnExpectedReturnCode :=
  ⟨(returnCode_from_i32_spec 5).1 (by decide) (by decide),
   (returnCode_from_i32_spec (-3)).2 (Or.inl (by decide))⟩

/-! ## Sandbox data model — src/crates/sandbox/src/instantiate.rs and the
fields of `Sandbox` used by src/crates/runtime/src/runtime.rs -/

/-- `ExecReturnValue { flags: ReturnFlags, data }`; `ReturnFlags` is a `u32`
bitflags value, `ReturnFlags::empty()` is 0. -/
structure ExecReturnValue where
  flags : Nat
  data : Bytes
  deriving DecidableEq, Repr

/-- `struct InstantiateEntry` (instantiate.rs lines 11-17). -/
structure InstantiateEntry where
  code_hash : Bytes
  endowment : Nat
  data : Bytes
  gas_left : Nat
  salt : Bytes
  deriving DecidableEq, Repr

/-- The gas meter: `gas_left: u64` is the only field `instantiate` reads. -/
structure GasMeter where
  gas_left : Nat
  deriving DecidableEq, Repr

/-- Modelled from the spec: the `Transaction` type is not under src; spec §3
describes it as "caller, value, and other externally supplied per-call
parameters".  The claims only replace or retain it wholesale, so two
representative fields suffice. -/
structure Transaction where
  caller : Bytes
  value : Nat
  deriving DecidableEq, Repr

/-- The extension context owning the queued nested-instantiate entries
(`self.ext.instantiates` in instantiate.rs). -/
structure ExtCtx where
  instantiates : List InstantiateEntry
  deriving DecidableEq, Repr

/-- The fields of `Sandbox` the embedded operations touch: the contract
state blob, the transaction context, the input buffer and the return
buffer (runtime.rs), and the extension context (instantiate.rs). -/
structure Sandbox where
  state : Bytes
  tx : Transaction
  input : Option Bytes
  ret : Option Bytes
  ext : ExtCtx
  deriving DecidableEq, Repr

/-- `Sandbox::instantiate` (instantiate.rs lines 20-50): pushes one
`InstantiateEntry` with the hard-coded endowment 3 and the meter's current
`gas_left`, performs no nested execution, and returns
`Ok((code_hash, ExecReturnValue { flags: empty, data: default }, 0))`.
The `&mut self` and `&mut GasMeter` parameters become the returned
`Sandbox` and `GasMeter` components; the meter is only read, never written. -/
def Sandbox.instantiate (sb : Sandbox) (code_hash : Bytes) (gm : GasMeter)
    (data : Bytes) (salt : Bytes) :
    Except ExecError (Bytes × ExecReturnValue × Nat) × Sandbox × GasMeter :=
  let entry : InstantiateEntry :=
    { code_hash := code_hash, endowment := 3, data := data,
      gas_left := gm.gas_left, salt := salt }
  let sb1 : Sandbox :=
    { sb with ext := { sb.ext with instantiates := sb.ext.instantiates ++ [entry] } }
  (Except.ok (code_hash, { flags := 0, data := [] }, 0), sb1, gm)

/-! ## Argument marshalling -/

/-- Modelled from the spec: `util::parse_args` is not under src (only its
call sites in runtime.rs are).  Spec §4.7: fails with `WrongArugmentLength`
if the number of supplied arguments does not match the declared type list
length exactly; otherwise the output is `selector ++ concatenation(args in
order)`, with no defaulting and no per-argument re-validation. -/
def parse_args (selector : Bytes) (args : List Bytes) (tys : List String) :
    Except ExecError Bytes :=
  if args.length ≠ tys.length then Except.error ExecError.WrongArugmentLength
  else Except.ok (selector ++ args.flatten)

/-- Claim C2: `parse_args` fails with `WrongArugmentLength` iff the argument
count differs from the declared type list length; on matching lengths the
output is exactly the selector followed by the arguments concatenated in
input order. -/
theorem parse_args_spec (selector : Bytes) (args : List Bytes) (tys : List String) :
    (parse_args selector args tys = Except.error ExecError.WrongArugmentLength ↔
      args.length ≠ tys.length) ∧
    (args.length = tys.length →
      parse_args selector args tys = Except.ok (selector ++ args.flatten)) := by
  unfold parse_args
  constructor
  · constructor
    · intro h hlen
      rw [if_neg (by simp [hlen])] at h
      exact Except.noConfusion h
    · intro h
      rw [if_pos h]
  · intro h
    rw [if_neg (by simp [h])]

/-- Witness for C2: one matching call and one mismatched call. -/
theorem parse_args_spec_witness :
    parse_args [155, 174, 157, 94] [[1]] ["bool"] = Except.ok [155, 174, 157, 94, 1] ∧
    parse_args [0] [[1], [2]] ["bool"] = Except.error ExecError.WrongArugmentLength :=
  ⟨(parse_args_spec [155, 174, 157, 94] [[1]] ["bool"]).2 (by decide),
   (parse_args_spec [0] [[1], [2]] ["bool"]).1.mpr (by decide)⟩

/-! ## Concrete fixtures used by witnesses and counterexamples -/

/-- A concrete transaction value. -/
def tx0 : Transaction := { caller := [7, 7], value := 11 }

/-- A concrete sandbox with an empty instantiate queue and empty buffers. -/
def sb0 : Sandbox :=
  { state := [1, 2, 3], tx := tx0, input := none, ret := none,
    ext := { instantiates := [] } }

/-- A concrete 32-byte code hash (all zeros). -/
def hash0 : Bytes := List.replicate 32 0

/-- Claim C6: every call to `Sandbox::instantiate` appends exactly one
`InstantiateEntry` — capturing the supplied code hash, the endowment, the
input data, the meter's remaining gas, and the salt — to the extension
context's queue; the previously queued entries stay in place unchanged. -/
theorem instantiate_appends_one_entry (sb : Sandbox) (code_hash : Bytes)
    (gm : GasMeter) (data salt : Bytes) :
    ((Sandbox.instantiate sb code_hash gm data salt).2.1).ext.instantiates =
      sb.ext.instantiates ++
        [{ code_hash := code_hash, endowment := 3, data := data,
           gas_left := gm.gas_left, salt := salt }] ∧
    ((Sandbox.instantiate sb code_hash gm data salt).2.1).ext.instantiates.take
        sb.ext.instantiates.length = sb.ext.instantiates ∧
    ((Sandbox.instantiate sb code_hash gm data salt).2.1).ext.instantiates.length =
      sb.ext.instantiates.length + 1 := by
  refine ⟨rfl, ?_, ?_⟩
  · show (sb.ext.instantiates ++ [_]).take sb.ext.instantiates.length = _
    rw [List.take_append_of_le_length (le_refl _), List.take_length]
  · show (sb.ext.instantiates ++ [_]).length = _
    simp

/-- Claim C9: `Sandbox::instantiate` always returns `Ok`; the returned
address is the supplied code hash itself (no address derivation), the
`ExecReturnValue` has empty flags and empty data, the used gas is 0, no
nested execution happens (the sandbox changes only by the queued entry),
and the recorded endowment is the constant 3. -/
theorem instantiate_stub_behaviour (sb : Sandbox) (code_hash : Bytes)
    (gm : GasMeter) (data salt : Bytes) :
    (Sandbox.instantiate sb code_hash gm data salt).1 =
      Except.ok (code_hash, { flags := 0, data := [] }, 0) ∧
    (Sandbox.instantiate sb code_hash gm data salt).2.2 = gm ∧
    (Sandbox.instantiate sb code_hash gm data salt).2.1 =
      { sb with ext := { sb.ext with instantiates := sb.ext.instantiates ++
          [{ code_hash := code_hash, endowment := 3, data := data,
             gas_left := gm.gas_left, salt := salt }] } } :=
  ⟨rfl, rfl, rfl⟩

/-- Counterexample for C5: at gas meter 100 the queued entry records 100
units of gas, yet the caller's meter still holds 100 afterwards — a debit
of the recorded amount would have left it at 100 - 100 = 0, so the gas is
not pre-reserved (debited) from the caller's meter at queue time. -/
theorem instantiate_gas_not_debited_cex :
    ((Sandbox.instantiate sb0 hash0 { gas_left := 100 } [5] [6]).2.1).ext.instantiates.map
        InstantiateEntry.gas_left = [100] ∧
    ((Sandbox.instantiate sb0 hash0 { gas_left := 100 } [5] [6]).2.2).gas_left = 100 ∧
    ¬ ((Sandbox.instantiate sb0 hash0 { gas_left := 100 } [5] [6]).2.2).gas_left =
        100 - 100 := by
  refine ⟨rfl, rfl, ?_⟩
  decide

/-- Claim C5 as amended: the gas recorded for a queued entry is the caller's
remaining gas at queue time — hence bounded by the parent's remaining gas —
but the caller's gas meter is not debited at queue time; it is returned
unchanged. -/
theorem instantiate_gas_recorded_not_debited (sb : Sandbox) (code_hash : Bytes)
    (gm : GasMeter) (data salt : Bytes) :
    ((Sandbox.instantiate sb code_hash gm data salt).2.1).ext.instantiates =
      sb.ext.instantiates ++
        [{ code_hash := code_hash, endowment := 3, data := data,
           gas_left := gm.gas_left, salt := salt }] ∧
    InstantiateEntry.gas_left
        { code_hash := code_hash, endowment := 3, data := data,
          gas_left := gm.gas_left, salt := salt } ≤ gm.gas_left ∧
    (Sandbox.instantiate sb code_hash gm data salt).2.2 = gm :=
  ⟨rfl, le_refl _, rfl⟩

/-! ## Runtime orchestration — src/crates/runtime/src/runtime.rs -/

/-- The runtime error variants observable in runtime.rs (the enum itself is
declared in a module not under src; only the variants used there are
modelled).  `Exec` stands for the `From` conversion applied by the `?`
operator when `parse_args` fails. -/
inductive RtError where
  | DecodeContractFailed
  | ParseWasmModuleFailed
  | CalcuateMemoryLimitFailed
  | AllocMemoryFailed
  | InitModuleFailed
  | GetMethodFailed (name : String)
  | DeployContractFailed (error : ExecError)
  | CallContractFailed (error : ExecError)
  | Exec (error : ExecError)
  deriving DecidableEq, Repr

/-- One entry of a metadata constructor/message table: a selector plus the
ordered declared parameter types (`tys.iter().map(|ty| ty.1)` at the call
sites). -/
structure MethodSig where
  selector : Bytes
  arg_types : List String
  deriving DecidableEq, Repr

/-- The metadata fields runtime.rs consumes: the constructor table, the
message table, and the contract's code hash (held already parsed; both
`flush` and `new` obtain it by `util::parse_code_hash(&metadata.source.hash)`
on the same string, so they see the same key). -/
structure Metadata where
  constructors : List (String × MethodSig)
  messages : List (String × MethodSig)
  source_hash : Bytes
  deriving DecidableEq, Repr

/-- Name lookup in a constructor/message table (`constructors.get(method)`). -/
def lookupMethod (table : List (String × MethodSig)) (name : String) :
    Option MethodSig :=
  (table.find? (fun p => p.1 == name)).map (fun p => p.2)

/-- The bytecode engine (`Instance::invoke(export_name, &[], &mut sandbox)`),
an external collaborator: it receives the export name and the sandbox and
returns an executor result together with the mutated sandbox. -/
abbrev Engine := String → Sandbox → Except ExecError Unit × Sandbox

/-- The export name `deploy` passed to `Instance::invoke` by `Runtime::deploy`. -/
def deployExport : String := "deploy"

/-- The export name `call` passed to `Instance::invoke` by `Runtime::call`. -/
def callExport : String := "call"

/-- The first statement of both `deploy` and `call`:
`if let Some(tx) = tx { self.sandbox.borrow_mut().tx = tx; }`. -/
def installTx (tx : Option Transaction) (sb : Sandbox) : Sandbox :=
  match tx with
  | some t => { sb with tx := t }
  | none => sb

/-- `Runtime::deploy` (runtime.rs lines 124-145): install the transaction if
supplied, resolve the method in the constructor table, marshal the
arguments into the input buffer, invoke the "deploy" export, and map an
engine failure to `DeployContractFailed`. -/
def Runtime.deploy (meta : Metadata) (engine : Engine) (sb : Sandbox)
    (method : String) (args : List Bytes) (tx : Option Transaction) :
    Except RtError Unit × Sandbox :=
  let sb := installTx tx sb
  match lookupMethod meta.constructors method with
  | none => (Except.error (RtError.GetMethodFailed method), sb)
  | some sig =>
    match parse_args sig.selector args sig.arg_types with
    | Except.error e => (Except.error (RtError.Exec e), sb)
    | Except.ok payload =>
      let sb := { sb with input := some payload }
      match engine deployExport sb with
      | (Except.error e, sb) => (Except.error (RtError.DeployContractFailed e), sb)
      | (Except.ok _, sb) => (Except.ok (), sb)

/-- `Runtime::call` (runtime.rs lines 148-178): like `deploy` but against the
message table and the "call" export; afterwards `bm.ret.take()` is
consulted first — a produced output buffer is returned as `Ok` (consuming
the buffer) even when the engine failed; otherwise an engine failure maps
to `CallContractFailed` and success yields `Ok(vec![])`. -/
def Runtime.call (meta : Metadata) (engine : Engine) (sb : Sandbox)
    (method : String) (args : List Bytes) (tx : Option Transaction) :
    Except RtError Bytes × Sandbox :=
  let sb := installTx tx sb
  match lookupMethod meta.messages method with
  | none => (Except.error (RtError.GetMethodFailed method), sb)
  | some sig =>
    match parse_args sig.selector args sig.arg_types with
    | Except.error e => (Except.error (RtError.Exec e), sb)
    | Except.ok payload =>
      let sb := { sb with input := some payload }
      let (res, sb) := engine callExport sb
      match sb.ret with
      | some r => (Except.ok r, { sb with ret := none })
      | none =>
        match res with
        | Except.error e => (Except.error (RtError.CallContractFailed e), sb)
        | Except.ok _ => (Except.ok [], sb)

/-- Modelled from the spec: the `Storage` collaborator and its in-memory
implementation are not under src.  Spec §6: `get(hash) -> Option<State>`,
`new_state() -> State`, `set(hash, State)`.  An association list keyed by
code hash realises it; `fresh` is the state `new_state()` hands out. -/
structure Storage where
  table : List (Bytes × Bytes)
  fresh : Bytes
  deriving DecidableEq, Repr

/-- `Storage::get`: the most recent value stored under the hash, if any. -/
def Storage.get (s : Storage) (h : Bytes) : Option Bytes :=
  (s.table.find? (fun p => p.1 == h)).map (fun p => p.2)

/-- `Storage::new_state`: the fresh state handed to contracts without a
stored state. -/
def Storage.new_state (s : Storage) : Bytes := s.fresh

/-- `Storage::set`: store a state under the hash, shadowing older values. -/
def Storage.set (s : Storage) (h : Bytes) (st : Bytes) : Storage :=
  { s with table := (h, st) :: s.table }

/-- `Runtime::flush` (runtime.rs lines 181-188): write the sandbox's current
state to storage keyed by the contract's code hash. -/
def Runtime.flush (storage : Storage) (meta : Metadata) (sb : Sandbox) :
    Storage :=
  storage.set meta.source_hash sb.state

/-- The state-selection step of `Runtime::new` (runtime.rs lines 86-92): the
stored state for the code hash if present, otherwise `new_state()`. -/
def Runtime.loadState (storage : Storage) (meta : Metadata) : Bytes :=
  match storage.get meta.source_hash with
  | some st => st
  | none => storage.new_state

/-! ## Further fixtures -/

/-- Metadata with empty constructor and message tables. -/
def meta0 : Metadata :=
  { constructors := [], messages := [], source_hash := hash0 }

/-- A method signature taking no arguments. -/
def sig0 : MethodSig := { selector := [1, 2, 3, 4], arg_types := [] }

/-- The name under which `sig0` is registered in `meta1`. -/
def getName : String := "get"

/-- Metadata whose message table holds exactly `getName`. -/
def meta1 : Metadata :=
  { constructors := [(getName, sig0)], messages := [(getName, sig0)],
    source_hash := hash0 }

/-- An engine that succeeds and leaves the sandbox unchanged. -/
def engine0 : Engine := fun _ s => (Except.ok (), s)

/-- An engine that succeeds and fills the return buffer with `[9]`. -/
def engineRet : Engine := fun _ s => (Except.ok (), { s with ret := some [9] })

/-- An engine that fails yet fills the return buffer with `[7]`. -/
def engineErrRet : Engine :=
  fun _ s => (Except.error ExecError.OutOfGas, { s with ret := some [7] })

/-- A storage holding no state at all. -/
def storage0 : Storage := { table := [], fresh := [9, 9] }

/-- Shared helper: when the argument count matches the declared type list,
`parse_args` succeeds with the selector-prefixed concatenation. -/
theorem parse_args_ok_len (selector : Bytes) (args : List Bytes)
    (tys : List String) (h : args.length = tys.length) :
    parse_args selector args tys = Except.ok (selector ++ args.flatten) := by
  unfold parse_args
  rw [if_neg (by simp [h])]

/-- Shared helper: `installTx` never touches the state blob. -/
theorem installTx_state (tx : Option Transaction) (sb : Sandbox) :
    (installTx tx sb).state = sb.state := by
  cases tx <;> rfl

/-- The name under which `sig0` is registered in `meta2`'s constructor
table only. -/
def newName : String := "new"

/-- The name under which `sig0` is registered in `meta2`'s message table
only. -/
def greetName : String := "greet"

/-- Metadata whose constructor and message tables differ: `newName` is a
constructor only, `greetName` a message only. -/
def meta2 : Metadata :=
  { constructors := [(newName, sig0)], messages := [(greetName, sig0)],
    source_hash := hash0 }

/-- Claim C3: a method name absent from the constructor table makes `deploy`
return the `GetMethodFailed` resolution error, and a name absent from the
message table does the same for `call` — each independently of the other
table's contents; in either case the engine is never consulted (the
outcome is the same for any two engines) and the sandbox's State blob is
untouched. -/
theorem unknown_method_no_invoke (meta : Metadata) (eng1 eng2 : Engine)
    (sb : Sandbox) (method : String) (args : List Bytes)
    (tx : Option Transaction) :
    (lookupMethod meta.constructors method = none →
      Runtime.deploy meta eng1 sb method args tx =
        (Except.error (RtError.GetMethodFailed method), installTx tx sb) ∧
      ((Runtime.deploy meta eng1 sb method args tx).2).state = sb.state ∧
      Runtime.deploy meta eng1 sb method args tx =
        Runtime.deploy meta eng2 sb method args tx) ∧
    (lookupMethod meta.messages method = none →
      Runtime.call meta eng1 sb method args tx =
        (Except.error (RtError.GetMethodFailed method), installTx tx sb) ∧
      ((Runtime.call meta eng1 sb method args tx).2).state = sb.state ∧
      Runtime.call meta eng1 sb method args tx =
        Runtime.call meta eng2 sb method args tx) := by
  constructor
  · intro hc
    have hd : ∀ eng : Engine, Runtime.deploy meta eng sb method args tx =
        (Except.error (RtError.GetMethodFailed method), installTx tx sb) := by
      intro eng
      unfold Runtime.deploy
      rw [hc]
    refine ⟨hd eng1, ?_, (hd eng1).trans (hd eng2).symm⟩
    rw [hd eng1]
    exact installTx_state tx sb
  · intro hm
    have hca : ∀ eng : Engine, Runtime.call meta eng sb method args tx =
        (Except.error (RtError.GetMethodFailed method), installTx tx sb) := by
      intro eng
      unfold Runtime.call
      rw [hm]
    refine ⟨hca eng1, ?_, (hca eng1).trans (hca eng2).symm⟩
    rw [hca eng1]
    exact installTx_state tx sb

/-- Witness for C3 on asymmetric tables: `call` on a constructor-only name
and `deploy` on a message-only name both resolve to `GetMethodFailed`. -/
theorem unknown_method_no_invoke_witness :
    Runtime.call meta2 engine0 sb0 newName [] none =
      (Except.error (RtError.GetMethodFailed newName), sb0) ∧
    Runtime.deploy meta2 engine0 sb0 greetName [] none =
      (Except.error (RtError.GetMethodFailed greetName), sb0) :=
  ⟨((unknown_method_no_invoke meta2 engine0 engine0 sb0 newName [] none).2
      (by decide)).1,
   ((unknown_method_no_invoke meta2 engine0 engine0 sb0 greetName [] none).1
      (by decide)).1⟩

/-- Claim C8: when a transaction is supplied it replaces the sandbox's
transaction context wholesale before the invocation; when none is supplied
the previous transaction context is retained unchanged — `deploy`/`call`
with `some t` behave exactly as on a sandbox whose transaction was already
`t` and no transaction supplied. -/
theorem tx_replaced_or_retained (meta : Metadata) (engine : Engine)
    (sb : Sandbox) (method : String) (args : List Bytes) (t : Transaction) :
    installTx (some t) sb = { sb with tx := t } ∧
    installTx none sb = sb ∧
    Runtime.deploy meta engine sb method args (some t) =
      Runtime.deploy meta engine { sb with tx := t } method args none ∧
    Runtime.call meta engine sb method args (some t) =
      Runtime.call meta engine { sb with tx := t } method args none :=
  ⟨rfl, rfl, rfl, rfl⟩

/-- The tail of `Runtime::call` after the invocation (runtime.rs lines
170-177), as a function of the invocation's result and the sandbox it
left behind: `if let Some(ret) = bm.ret.take() { return Ok(ret); } else
{ res.map_err(...)?; } Ok(vec![])`. -/
def finishCall (p : Except ExecError Unit × Sandbox) :
    Except RtError Bytes × Sandbox :=
  match p.2.ret with
  | some r => (Except.ok r, { p.2 with ret := none })
  | none =>
    match p.1 with
    | Except.error e => (Except.error (RtError.CallContractFailed e), p.2)
    | Except.ok _ => (Except.ok [], p.2)

/-- Shared helper: once the method resolves and the arity matches,
`Runtime.call` is the invocation followed by `finishCall`. -/
theorem call_eq_finishCall (meta : Metadata) (engine : Engine) (sb : Sandbox)
    (method : String) (args : List Bytes) (tx : Option Transaction)
    (sig : MethodSig) (res : Except ExecError Unit) (sb1 : Sandbox)
    (hsig : lookupMethod meta.messages method = some sig)
    (hlen : args.length = sig.arg_types.length)
    (heng : engine callExport
        { installTx tx sb with input := some (sig.selector ++ args.flatten) } =
      (res, sb1)) :
    Runtime.call meta engine sb method args tx = finishCall (res, sb1) := by
  simp only [Runtime.call, hsig,
    parse_args_ok_len sig.selector args sig.arg_types hlen, heng, finishCall]

/-- Claim C4: after invoking the call entry point, `Runtime::call` returns
the sandbox's output buffer as `Ok(data)` when the invocation left one —
`data` being exactly the bytes the return-data host call recorded in the
buffer — and otherwise propagates the invocation's error (wrapped as
`CallContractFailed`). -/
theorem call_returns_output_or_propagates (meta : Metadata) (engine : Engine)
    (sb : Sandbox) (method : String) (args : List Bytes) (tx : Option Transaction)
    (sig : MethodSig) (res : Except ExecError Unit) (sb1 : Sandbox) (data : Bytes)
    (hsig : lookupMethod meta.messages method = some sig)
    (hlen : args.length = sig.arg_types.length)
    (heng : engine callExport
        { installTx tx sb with input := some (sig.selector ++ args.flatten) } =
      (res, sb1)) :
    (sb1.ret = some data →
      Runtime.call meta engine sb method args tx =
        (Except.ok data, { sb1 with ret := none })) ∧
    (∀ e, sb1.ret = none → res = Except.error e →
      Runtime.call meta engine sb method args tx =
        (Except.error (RtError.CallContractFailed e), sb1)) := by
  have hbase := call_eq_finishCall meta engine sb method args tx sig res sb1
    hsig hlen heng
  constructor
  · intro hret
    rw [hbase]
    simp only [finishCall, hret]
  · intro e hret hres
    rw [hbase]
    simp only [finishCall, hret, hres]

/-- Witness for C4 with a handler that records `[9]` as return data. -/
theorem call_returns_output_witness :
    Runtime.call meta1 engineRet sb0 getName [] none =
      (Except.ok [9],
       { state := [1, 2, 3], tx := tx0, input := some [1, 2, 3, 4], ret := none,
         ext := { instantiates := [] } }) :=
  (call_returns_output_or_propagates meta1 engineRet sb0 getName [] none sig0
      (Except.ok ())
      { state := [1, 2, 3], tx := tx0, input := some [1, 2, 3, 4],
        ret := some [9], ext := { instantiates := [] } }
      [9] (by decide) rfl rfl).1 rfl

/-- Claim C10: the output buffer takes precedence over the invocation
result — when the return buffer holds `data` after invoke, `call` yields
`Ok(data)` even if the invocation itself failed (the error is discarded)
and the buffer is consumed (reset to none); when the invocation succeeds
and no buffer was produced, `call` yields `Ok` with the empty byte
vector. -/
theorem call_ret_buffer_precedence (meta : Metadata) (engine : Engine)
    (sb : Sandbox) (method : String) (args : List Bytes) (tx : Option Transaction)
    (sig : MethodSig) (res : Except ExecError Unit) (sb1 : Sandbox) (data : Bytes)
    (hsig : lookupMethod meta.messages method = some sig)
    (hlen : args.length = sig.arg_types.length)
    (heng : engine callExport
        { installTx tx sb with input := some (sig.selector ++ args.flatten) } =
      (res, sb1)) :
    (∀ e, res = Except.error e → sb1.ret = some data →
      Runtime.call meta engine sb method args tx =
        (Except.ok data, { sb1 with ret := none })) ∧
    (res = Except.ok () → sb1.ret = none →
      Runtime.call meta engine sb method args tx = (Except.ok [], sb1)) := by
  have hbase := call_eq_finishCall meta engine sb method args tx sig res sb1
    hsig hlen heng
  constructor
  · intro e hres hret
    rw [hbase]
    simp only [finishCall, hret]
  · intro hres hret
    rw [hbase]
    simp only [finishCall, hret, hres]

/-- Witness for C10 with an engine that fails yet records `[7]` as return
data: the error is discarded and the buffer is returned and consumed. -/
theorem call_ret_buffer_precedence_witness :
    Runtime.call meta1 engineErrRet sb0 getName [] none =
      (Except.ok [7],
       { state := [1, 2, 3], tx := tx0, input := some [1, 2, 3, 4], ret := none,
         ext := { instantiates := [] } }) :=
  (call_ret_buffer_precedence meta1 engineErrRet sb0 getName [] none sig0
      (Except.error ExecError.OutOfGas)
      { state := [1, 2, 3], tx := tx0, input := some [1, 2, 3, 4],
        ret := some [7], ext := { instantiates := [] } }
      [7] (by decide) rfl rfl).1 ExecError.OutOfGas rfl rfl

/-- Claim C7: `flush()` followed by the state-selection step of a fresh
`Runtime::new` against the same storage and code hash reconstructs exactly
the flushed State; when storage holds nothing for the code hash,
`Runtime::new` starts from `Storage::new_state()` instead. -/
theorem flush_then_new_roundtrip (storage : Storage) (meta : Metadata)
    (sb : Sandbox) :
    Runtime.loadState (Runtime.flush storage meta sb) meta = sb.state ∧
    (Storage.get storage meta.source_hash = none →
      Runtime.loadState storage meta = Storage.new_state storage) := by
  constructor
  · simp [Runtime.loadState, Runtime.flush, Storage.get, Storage.set,
      List.find?]
  · intro h
    unfold Runtime.loadState
    rw [h]

/-- Witness for C7 on an initially empty storage. -/
theorem flush_then_new_roundtrip_witness :
    Runtime.loadState (Runtime.flush storage0 meta0 sb0) meta0 = sb0.state ∧
    Runtime.loadState storage0 meta0 = Storage.new_state storage0 :=
  ⟨(flush_then_new_roundtrip storage0 meta0 sb0).1,
   (flush_then_new_roundtrip storage0 meta0 sb0).2 rfl⟩

end Ceres
